import Mathlib

/-
Verification of the real-estate voice-agent repository: a shallow embedding
of the call-handling flow, the CRM ledger, and the OpenAI-integration
fallbacks, with theorems settling the frozen claims about them.

Conventions of the embedding:
* Python sources of randomness (random.choice, random.choices, random.randint)
  are injected as explicit index parameters; a draw from a non-empty list is
  modelled as indexing modulo the list length.
* The wall clock (datetime.now, time.time) is injected as explicit parameters:
  a calendar date for strftime-formatted dates and a Nat (seconds) for
  timestamps.
* Python exceptions are modelled with Except; a raised exception aborts the
  remaining statements of the caller, which the trace runner reproduces by
  stopping at the first failing ledger operation.
* The OpenAI backend is external: it is modelled as a function argument
  returning Except, error standing for a raised/failed API call.
-/

namespace VoiceAgent

/-! ### String helpers mirroring Python primitives -/

/-- Python `str.title()` for one character position: uppercase a letter that
starts an alphabetic run, lowercase the rest.  The fold carries the output in
reverse together with the flag "previous character was alphabetic". -/
def pyTitleStep (acc : List Char × Bool) (c : Char) : List Char × Bool :=
  if c.isAlpha then
    (((if acc.2 then c.toLower else c.toUpper) :: acc.1), true)
  else
    ((c :: acc.1), false)

/-- Python `str.title()`. -/
def pyTitle (s : String) : String :=
  String.mk (s.data.foldl pyTitleStep ([], false)).1.reverse

/-- Zero-pad a number below 100 to two digits, as Python `%02d` / `{n:02d}`. -/
def pad2 (n : Nat) : String :=
  if n < 10 then "0" ++ toString n else toString n

/-- One step of Python `{n:,}` digit grouping over the reversed digit list:
insert a comma before every third digit. -/
def commaStep (acc : List Char × Nat) (c : Char) : List Char × Nat :=
  if acc.2 % 3 = 0 ∧ acc.2 ≠ 0 then
    ((c :: ',' :: acc.1), acc.2 + 1)
  else
    ((c :: acc.1), acc.2 + 1)

/-- Python format `{n:,}`: decimal digits grouped in threes by commas. -/
def commaGroup (n : Nat) : String :=
  String.mk ((toString n).data.reverse.foldl commaStep ([], 0)).1

/-- Does the first list occur as a prefix of the second? -/
def startsWithChars : List Char → List Char → Bool
  | [], _ => true
  | _ :: _, [] => false
  | a :: as, b :: bs => a = b && startsWithChars as bs

/-- Does `needle` occur as a contiguous substring of `haystack`?
Models Python `needle in haystack` on strings. -/
def containsSub (needle : List Char) : List Char → Bool
  | [] => startsWithChars needle []
  | c :: rest => startsWithChars needle (c :: rest) || containsSub needle rest

/-- Python `needle in haystack` for strings. -/
def strContains (haystack needle : String) : Bool :=
  containsSub needle.data haystack.data

/-- Python `random.choice` over a non-empty list, the draw injected as an
index taken modulo the length (an empty list yields the default `""`). -/
def pyChoice (l : List String) (i : Nat) : String :=
  l.getD (i % l.length) ""

/-! ### Calendar model (datetime) -/

/-- Gregorian leap-year rule, as implemented by Python `datetime`. -/
def isLeapYear (y : Nat) : Bool :=
  (y % 4 = 0 && y % 100 ≠ 0) || y % 400 = 0

/-- Number of days of month `m` (1-12) in year `y`. -/
def daysInMonth (y m : Nat) : Nat :=
  if m = 2 then (if isLeapYear y then 29 else 28)
  else if m = 4 ∨ m = 6 ∨ m = 9 ∨ m = 11 then 30
  else 31

/-- A calendar date as held by a Python `datetime` (time-of-day omitted:
the claims only concern the date part). -/
structure Date where
  year : Nat
  month : Nat
  day : Nat
deriving DecidableEq

/-- Python exceptions that the modelled code can raise. -/
inductive PyErr where
  | valueError (msg : String)
  | attributeError (msg : String)
deriving DecidableEq

/-- Python `datetime.replace(day=newDay)`: raises `ValueError` when the day
is out of range for the (unchanged) month. -/
def dateReplaceDay (d : Date) (newDay : Nat) : Except PyErr Date :=
  if 1 ≤ newDay ∧ newDay ≤ daysInMonth d.year d.month then
    Except.ok { d with day := newDay }
  else
    Except.error (PyErr.valueError "day is out of range for month")

/-- Python `date + timedelta(days=1)`: rolls over month and year ends. -/
def nextDay (d : Date) : Date :=
  if d.day + 1 ≤ daysInMonth d.year d.month then
    { d with day := d.day + 1 }
  else if d.month + 1 ≤ 12 then
    { year := d.year, month := d.month + 1, day := 1 }
  else
    { year := d.year + 1, month := 1, day := 1 }

/-- Day of week by Sakamoto's method, 0 = Sunday, matching `datetime`. -/
def dayOfWeek (d : Date) : Nat :=
  let t : List Nat := [0, 3, 2, 5, 0, 3, 5, 1, 4, 6, 2, 4]
  let y := if d.month < 3 then d.year - 1 else d.year
  (y + y / 4 - y / 100 + y / 400 + t.getD (d.month - 1) 0 + d.day) % 7

/-- English weekday names indexed from Sunday, as `strftime("%A")`. -/
def weekdayName (w : Nat) : String :=
  [ "Sunday", "Monday", "Tuesday", "Wednesday", "Thursday", "Friday",
    "Saturday" ].getD w ""

/-- English month names indexed from 1, as `strftime("%B")`. -/
def monthName (m : Nat) : String :=
  [ "January", "February", "March", "April", "May", "June", "July",
    "August", "September", "October", "November", "December" ].getD (m - 1) ""

/-- Python `strftime("%A, %B %d")`, e.g. `"Monday, October 12"`. -/
def formatDateAMBd (d : Date) : String :=
  let w := weekdayName (dayOfWeek d)
  let mo := monthName d.month
  let dd := pad2 d.day
  s!"{w}, {mo} {dd}"

/-- The candidate dates of `_handle_general_inquiry` (both agent variants):
`[datetime.now(), now.replace(day=now.day+1), now.replace(day=now.day+2)]`.
`replace` raises `ValueError` whenever `day+1` or `day+2` exceeds the length
of the current month. -/
def availableDatesGeneral (today : Date) : Except PyErr (List Date) := do
  let d1 ← dateReplaceDay today (today.day + 1)
  let d2 ← dateReplaceDay today (today.day + 2)
  pure [today, d1, d2]

/-- The candidate dates of `_handle_property_inquiry` in `voice_agent.py`:
`[datetime.now(), now.replace(day=now.day+1)]`. -/
def availableDatesProperty (today : Date) : Except PyErr (List Date) := do
  let d1 ← dateReplaceDay today (today.day + 1)
  pure [today, d1]

/-! ### Data model -/

/-- The client dictionaries passed to `make_call` (see the example usage in
`voice_agent.py`). -/
structure ClientInfo where
  id : String
  name : String
  phone : String
  email : String
  interest : String
  location : String
  budget : Nat
deriving DecidableEq

/-- A property dictionary as loaded by `_load_properties`. -/
structure PropertyInfo where
  id : String
  name : String
  type : String
  price : Nat
  address : String
  features : String
  description : String
deriving DecidableEq

/-- The structured sentiment judgment returned by
`analyze_client_sentiment`. -/
structure SentimentAssessment where
  sentiment : String
  interest_level : String
  key_concerns : List String
  preferences : List String
  next_action : String
deriving DecidableEq

/-- A chat message (`{"role": ..., "content": ...}`). -/
structure Message where
  role : String
  content : String
deriving DecidableEq

/-- One call record held in `CRMIntegration.calls` (`voice_agent.py`).
Keys the Python dict only gains at close time (`end_time`, `duration`) and
keys initialised to `None` (`outcome`) are `Option` fields.  Timestamps are
seconds, injected in place of `datetime.now()`; a note is a
(timestamp, content) pair. -/
structure CallRecord where
  client : ClientInfo
  start_time : Nat
  end_time : Option Nat
  status : String
  notes : List (Nat × String)
  outcome : Option String
  duration : Option String
deriving DecidableEq

/-- One appointment dictionary appended to `CRMIntegration.appointments`. -/
structure Appointment where
  id : String
  client : ClientInfo
  date : String
  time : String
  property_id : Option String
  status : String
  created_at : Nat
deriving DecidableEq

/-- The in-memory CRM store: the insertion-ordered dict `self.calls` as an
association list, and the list `self.appointments`. -/
structure CRMState where
  calls : List (String × CallRecord)
  appointments : List Appointment
deriving DecidableEq

/-- The freshly constructed CRM store. -/
def emptyCRM : CRMState := { calls := [], appointments := [] }

/-! ### OpenAI integration (`openai_integration.py`)

The external text-generation backend is a function argument producing
`Except String String`; `Except.error` stands for the API call raising. -/

/-- The fixed fallback returned by `generate_response` when the backend
call raises. -/
def apologyFallback : String :=
  "I apologize, but I\x27m having trouble generating a response right now. Let me connect you with a human agent who can assist you further."

/-- The system persona text of `generate_response` (whitespace flattened). -/
def baseSystemMessage (agent_name : String) : String :=
  s!"You are an experienced real estate agent named {agent_name}. You are professional, knowledgeable, and friendly. Your goal is to help potential clients find properties that match their needs and schedule viewings when appropriate. Keep your responses concise but informative. Focus on providing value to the potential client."

/-- The property block appended to the system message when `property_info`
is given. -/
def propertyDetailsBlock (p : PropertyInfo) : String :=
  let nm := p.name
  let ty := p.type
  let pr := commaGroup p.price
  let ad := p.address
  let ft := p.features
  let ds := p.description
  s!" You are currently discussing this property: - Name: {nm} - Type: {ty} - Price: ${pr} - Address: {ad} - Features: {ft} - Description: {ds}"

/-- The full system message of `generate_response`: persona, then the
optional property block, then the optional agent context. -/
def systemMessage (agent_name : String) (property_info : Option PropertyInfo)
    (agent_context : Option String) : String :=
  let base := baseSystemMessage agent_name
  let withProperty :=
    match property_info with
    | some p => base ++ propertyDetailsBlock p
    | none => base
  match agent_context with
  | some ctx => withProperty ++ s!" Additional context: {ctx}"
  | none => withProperty

/-- The message list `generate_response` sends to the backend: the system
message, the conversation history, then the newest client message. -/
def buildMessages (client_message : String) (conversation_history : List Message)
    (property_info : Option PropertyInfo) (agent_name : String)
    (agent_context : Option String) : List Message :=
  ({ role := "system",
     content := systemMessage agent_name property_info agent_context }
      :: conversation_history)
    ++ [{ role := "user", content := client_message }]

/-- `OpenAIIntegration.generate_response`: send the assembled messages to the
backend; if the API call raises, swallow the exception and return the fixed
apology string. -/
def generate_response (backendCall : List Message → Except String String)
    (client_message : String) (conversation_history : List Message)
    (property_info : Option PropertyInfo) (agent_name : String)
    (agent_context : Option String) : String :=
  match backendCall (buildMessages client_message conversation_history
      property_info agent_name agent_context) with
  | Except.ok text => text
  | Except.error _ =>
      apologyFallback

/-- The prompt of `generate_property_description` (whitespace flattened). -/
def descriptionPrompt (p : PropertyInfo) : String :=
  let ty := p.type
  let pr := commaGroup p.price
  let ad := p.address
  let ft := p.features
  s!"Create an engaging and persuasive description for this property: Property Type: {ty} Price: ${pr} Location: {ad} Features: {ft} The description should highlight the property\x27s best features and appeal to potential buyers. Keep it concise (100-150 words) but compelling."

/-- The fixed string `generate_property_description` returns when the
backend call raises. -/
def descriptionFallback : String :=
  "Property description not available at this time."

/-- `OpenAIIntegration.generate_property_description`: on backend failure it
does not raise — it returns the fixed placeholder `descriptionFallback`. -/
def generate_property_description
    (backendCall : String → Except String String) (p : PropertyInfo) : String :=
  match backendCall (descriptionPrompt p) with
  | Except.ok text => text
  | Except.error _ => descriptionFallback

/-- The prompt of `analyze_client_sentiment` (whitespace flattened). -/
def sentimentPrompt (client_message : String) : String :=
  s!"Analyze this message from a potential real estate client: \x22{client_message}\x22 Provide a JSON response with the following fields: - sentiment: (positive, neutral, or negative) - interest_level: (high, medium, or low) - key_concerns: (list of any concerns mentioned) - preferences: (list of any preferences mentioned) - next_action: (what the agent should focus on next)"

/-- The default assessment `analyze_client_sentiment` returns on failure. -/
def defaultSentimentAssessment : SentimentAssessment :=
  { sentiment := "neutral"
    interest_level := "medium"
    key_concerns := []
    preferences := []
    next_action := "ask_follow_up_questions" }

/-- `OpenAIIntegration.analyze_client_sentiment`: call the backend on the
sentiment prompt, then parse the returned text with `json.loads` (modelled by
the `parseJson` argument, `Except.error` standing for a raise on unparsable
output).  Any exception from either step yields the fixed default. -/
def analyze_client_sentiment (backendCall : String → Except String String)
    (parseJson : String → Except String SentimentAssessment)
    (client_message : String) : SentimentAssessment :=
  match backendCall (sentimentPrompt client_message) with
  | Except.error _ => defaultSentimentAssessment
  | Except.ok text =>
      match parseJson text with
      | Except.error _ => defaultSentimentAssessment
      | Except.ok analysis => analysis

/-- The sentiment-based outcome decision of `_handle_general_inquiry` in
`voice_agent_with_openai.py` (lines 250-255): `high` and `medium` are tested
explicitly and everything else falls into the unconditional `else`. -/
def decideOutcomeFromSentiment (sentiment : SentimentAssessment) : String :=
  if sentiment.interest_level = "high" then "appointment_scheduled"
  else if sentiment.interest_level = "medium" then "information_provided"
  else "follow_up_required"

/-! ### Property fixtures and best-effort description enrichment -/

/-- The four property records of `_load_properties` (identical in both agent
variants). -/
def defaultProperties : List PropertyInfo :=
  [ { id := "prop001", name := "Lakeside Villa", type := "Residential",
      price := 1250000, address := "123 Lake Dr, Waterfront, CA",
      features := "4 bed, 3 bath, 3,200 sq ft",
      description := "Luxurious lakefront property with panoramic water views" },
    { id := "prop002", name := "Downtown Condo", type := "Residential",
      price := 650000, address := "456 Main St #302, Downtown, CA",
      features := "2 bed, 2 bath, 1,100 sq ft",
      description := "Modern condo in the heart of downtown with city views" },
    { id := "prop003", name := "Commercial Office", type := "Commercial",
      price := 2800000, address := "789 Business Ave, Commerce, CA",
      features := "12,000 sq ft, 3 floors",
      description := "Prime commercial space in the business district" },
    { id := "prop004", name := "Suburban House", type := "Residential",
      price := 875000, address := "321 Oak St, Suburbia, CA",
      features := "3 bed, 2.5 bath, 2,400 sq ft",
      description := "Family home in a quiet suburban neighborhood" } ]

/-- The `try`/`except` around one description assignment in
`_load_properties` of `voice_agent_with_openai.py`: if `gen` raises, the
record keeps its original description; otherwise the returned text replaces
it. -/
def enrichDescription (gen : PropertyInfo → Except String String)
    (p : PropertyInfo) : PropertyInfo :=
  match gen p with
  | Except.ok d => { p with description := d }
  | Except.error _ => p

/-- `_load_properties` with OpenAI enabled: enrich every record.  For the
fixture records the prompt construction of `generate_property_description`
always succeeds (prices are numbers), so the generator itself never raises:
backend failures surface only as its returned placeholder text. -/
def loadPropertiesWithOpenAI
    (backendCall : String → Except String String) : List PropertyInfo :=
  defaultProperties.map
    (enrichDescription
      (fun p => Except.ok (generate_property_description backendCall p)))

/-! ### The CRM ledger (`CRMIntegration` in `voice_agent.py`) -/

/-- Python dict assignment `self.calls[call_id] = v`: replace in place when
the key exists, append otherwise. -/
def dictInsert (m : List (String × CallRecord)) (k : String) (v : CallRecord) :
    List (String × CallRecord) :=
  if m.any (fun q => q.1 = k) then
    m.map (fun q => if q.1 = k then (k, v) else q)
  else
    m ++ [(k, v)]

/-- The record `log_call_start` creates: status `in-progress`, no end time,
no outcome, no duration. -/
def newCallRecord (client : ClientInfo) (now : Nat) : CallRecord :=
  { client := client, start_time := now, end_time := none,
    status := "in-progress", notes := [], outcome := none, duration := none }

/-- Duration formatting of `log_call_end`:
`f"{int(duration // 60)}:{int(duration % 60):02d}"`. -/
def formatDuration (seconds : Nat) : String :=
  let m := toString (seconds / 60)
  let s := pad2 (seconds % 60)
  s!"{m}:{s}"

/-- `log_call_end` on one record: stamp the end time, set the status to
`completed`, and compute the duration from the timestamps. -/
def closeRecord (r : CallRecord) (now : Nat) : CallRecord :=
  { r with end_time := some now, status := "completed",
           duration := some (formatDuration (now - r.start_time)) }

/-- Attribute access `time.time()` inside `schedule_appointment`, where the
parameter `time` (a string such as `"2:00 PM"`) shadows the `time` module:
Python raises `AttributeError` because `str` has no `time` attribute. -/
def strTimeMethod (_s : String) : Except PyErr Nat :=
  Except.error (PyErr.attributeError "str object has no attribute time")

/-- The appointment dictionary `schedule_appointment` would append after
computing its id (dead code in practice: the id computation raises first). -/
def mkAppointment (t rand : Nat) (client : ClientInfo) (date tm : String)
    (property_id : Option String) (now : Nat) : Appointment :=
  { id := s!"apt_{t}_{rand}", client := client, date := date, time := tm,
    property_id := property_id, status := "scheduled", created_at := now }

/-- One CRM ledger operation, as invoked by the call-handling flow.  The
call id (clock + random suffix in the source) and the clock readings are
carried as data. -/
inductive CrmOp where
  | log_call_start (client : ClientInfo) (call_id : String) (now : Nat)
  | update_call_notes (call_id note : String) (now : Nat)
  | update_call_outcome (call_id outcome : String)
  | log_call_end (call_id : String) (now : Nat)
  | schedule_appointment (client : ClientInfo) (date tm : String)
      (property_id : Option String) (rand now : Nat)
deriving DecidableEq

/-- Apply one ledger operation.  The three updating operations are guarded by
`if call_id in self.calls` in the source and silently do nothing on an
unknown id, which the entrywise map reproduces.  `schedule_appointment`
raises `AttributeError` from `int(time.time())` before appending anything,
because its `time` parameter shadows the `time` module. -/
def applyOp (crm : CRMState) : CrmOp → Except PyErr CRMState
  | CrmOp.log_call_start client call_id now =>
      Except.ok
        { crm with calls := dictInsert crm.calls call_id (newCallRecord client now) }
  | CrmOp.update_call_notes call_id note now =>
      Except.ok
        { crm with calls := crm.calls.map (fun q =>
            if q.1 = call_id then
              (q.1, { q.2 with notes := q.2.notes ++ [(now, note)] })
            else q) }
  | CrmOp.update_call_outcome call_id outcome =>
      Except.ok
        { crm with calls := crm.calls.map (fun q =>
            if q.1 = call_id then (q.1, { q.2 with outcome := some outcome })
            else q) }
  | CrmOp.log_call_end call_id now =>
      Except.ok
        { crm with calls := crm.calls.map (fun q =>
            if q.1 = call_id then (q.1, closeRecord q.2 now) else q) }
  | CrmOp.schedule_appointment client date tm property_id rand now =>
      match strTimeMethod tm with
      | Except.error e => Except.error e
      | Except.ok t =>
          Except.ok
            { crm with appointments :=
                crm.appointments ++ [mkAppointment t rand client date tm property_id now] }

/-- Run a sequence of ledger operations; a raised exception aborts the rest,
returning the state reached so far together with the exception. -/
def runTrace (crm : CRMState) : List CrmOp → CRMState × Option PyErr
  | [] => (crm, none)
  | op :: ops =>
      match applyOp crm op with
      | Except.ok crm2 => runTrace crm2 ops
      | Except.error e => (crm, some e)

/-- Every state the ledger passes through while running a sequence of
operations (the initial state, then the state after each operation that
completes; a raised exception stops the run). -/
def statesOf (crm : CRMState) : List CrmOp → List CRMState
  | [] => [crm]
  | op :: ops =>
      crm ::
        match applyOp crm op with
        | Except.ok crm2 => statesOf crm2 ops
        | Except.error _ => []

/-- Python truthiness of an optional string: `None` and `""` are falsy. -/
def pyTruthyStr : Option String → Bool
  | none => false
  | some s => s != ""

/-- The two shapes `get_call_history` can return: a freshly built list of
records, or the internal id-to-record dict itself. -/
inductive CallHistoryResult where
  | filteredList (records : List CallRecord)
  | fullMapping (calls : List (String × CallRecord))
deriving DecidableEq

/-- `CRMIntegration.get_call_history`: `if client_id:` (truthiness) selects
between a filtered list comprehension and returning `self.calls` whole. -/
def get_call_history (crm : CRMState) (client_id : Option String) :
    CallHistoryResult :=
  if pyTruthyStr client_id then
    CallHistoryResult.filteredList
      ((crm.calls.filter (fun q => some q.2.client.id == client_id)).map
        (fun q => q.2))
  else
    CallHistoryResult.fullMapping crm.calls

/-- The two shapes `get_appointments` can return: a freshly built filtered
list, or the internal appointments list itself. -/
inductive AppointmentsResult where
  | filteredList (apts : List Appointment)
  | internalList (apts : List Appointment)
deriving DecidableEq

/-- `CRMIntegration.get_appointments`: `if client_id:` (truthiness) selects
between a filtered list comprehension and returning `self.appointments`. -/
def get_appointments (crm : CRMState) (client_id : Option String) :
    AppointmentsResult :=
  if pyTruthyStr client_id then
    AppointmentsResult.filteredList
      (crm.appointments.filter (fun a => some a.client.id == client_id))
  else
    AppointmentsResult.internalList crm.appointments

/-! ### Call flows (`RealEstateVoiceAgent` in `voice_agent.py`)

The script templates are only printed (text-to-speech is stubbed); the CRM
only ever receives the note built from the simulated client reply and the
agent reply, so the flows are modelled by the sequence of ledger operations
they attempt, in program order. -/

/-- The injected draws standing for the `random` calls of one `make_call`:
the simulated client reply, the weighted outcome draw, the two offered
(date, time) options, and the `randint` suffix of the appointment id. -/
structure CallRand where
  respIdx : Nat
  outcomeIdx : Nat
  dIdx1 : Nat
  tIdx1 : Nat
  dIdx2 : Nat
  tIdx2 : Nat
  aptRand : Nat
deriving DecidableEq

/-- The simulated client replies of `_handle_general_inquiry`. -/
def generalClientResponses : List String :=
  [ "Yes, I\x27d like to hear more about the properties you have.",
    "I\x27m not sure if I\x27m ready to view properties just yet.",
    "What kind of properties do you have in that area?",
    "I\x27m specifically looking for something with a garage." ]

/-- The canned agent replies of `_handle_general_inquiry`
(`ai_responses.get(client_response, default)`). -/
def generalAiResponses (client_response : String) : String :=
  if client_response = "Yes, I\x27d like to hear more about the properties you have." then
    "Great! We have several properties that might interest you. One of our most popular listings is a modern two-bedroom condo in the heart of downtown. It features an open floor plan, high ceilings, and a private balcony with city views. It\x27s priced at $650,000."
  else if client_response = "I\x27m not sure if I\x27m ready to view properties just yet." then
    "I completely understand. Would you like me to tell you a bit more about the properties we have available in the downtown area? This might help you decide if you\x27d like to schedule a viewing."
  else if client_response = "What kind of properties do you have in that area?" then
    "In the downtown area, we have a mix of modern condos, luxury apartments, and a few townhouses. Our most popular listing is a two-bedroom condo with an open floor plan and city views, priced at $650,000. We also have a three-bedroom townhouse with a rooftop terrace for $875,000."
  else if client_response = "I\x27m specifically looking for something with a garage." then
    "We do have several properties with garage parking. Our downtown condo comes with one dedicated parking space in the secure underground garage. We also have a townhouse in the suburban area with a two-car garage, priced at $875,000. Would either of these interest you?"
  else
    "I understand. Let me find some properties that would match your needs."

/-- The outcome identifiers of the weighted draw.  The source draws with
weights `[0.25, 0.4, 0.2, 0.15]`; the weights shape the distribution only,
so the injected draw is modelled as an index into this support. -/
def callOutcomes : List String :=
  ["appointment_scheduled", "information_provided", "follow_up_required", "not_interested"]

/-- The candidate time strings of the general-inquiry scheduling branch. -/
def generalTimes : List String := ["10:00 AM", "1:00 PM", "3:30 PM", "5:00 PM"]

/-- The simulated client replies of `_handle_property_inquiry`. -/
def propertyClientResponses : List String :=
  [ "That sounds interesting. Is parking included?",
    "What are the HOA fees?",
    "Is it close to public transportation?",
    "I\x27d like to schedule a viewing." ]

/-- The canned agent replies of `_handle_property_inquiry`, including the
conditional f-string fragments on the property type and address. -/
def propertyAiResponses (p : PropertyInfo) (client_response : String) : String :=
  let nm := p.name
  if client_response = "That sounds interesting. Is parking included?" then
    let frag := if p.type = "Residential" then
        "one assigned space in the underground garage"
      else "multiple parking spaces in the private lot"
    s!"Yes, the {nm} comes with dedicated parking. For this specific property, you get {frag}."
  else if client_response = "What are the HOA fees?" then
    let frag1 := if p.type = "Residential" then "$450 per month"
      else "not applicable as this is a commercial property with a different fee structure"
    let frag2 := if p.type = "Residential" then
        "building maintenance, security, and access to amenities like the gym and pool"
      else "common area maintenance and security"
    s!"The HOA fees for {nm} are {frag1}. This includes {frag2}."
  else if client_response = "Is it close to public transportation?" then
    let frag := if strContains p.address "Downtown" then
        "subway station just two blocks away"
      else "bus stop within walking distance"
    s!"Yes, {nm} is very conveniently located. There\x27s a {frag}, and several bus lines run nearby."
  else if client_response = "I\x27d like to schedule a viewing." then
    "That\x27s great! I\x27d be happy to arrange that for you. We have availability tomorrow at 2:00 PM or Friday at 10:00 AM. Which would work better for your schedule?"
  else
    s!"Thank you for your interest in {nm}. I\x27ll make a note of your question and have our property specialist get back to you with more details."

/-- The candidate time strings of the property-inquiry viewing branch. -/
def propertyTimes : List String := ["10:00 AM", "2:00 PM"]

/-- The note text logged by both flows:
`f"Client: {client_response}\nAgent: {ai_response}"`. -/
def noteText (client_response ai_response : String) : String :=
  s!"Client: {client_response}\nAgent: {ai_response}"

/-- `_handle_general_inquiry` (`voice_agent.py`): the ledger operations it
attempts, paired with an exception raised by non-ledger code (the
`ValueError` of the candidate-date computation), which truncates the rest. -/
def general_inquiry_ops (client : ClientInfo) (call_id : String) (today : Date)
    (now : Nat) (r : CallRand) : List CrmOp × Option PyErr :=
  let client_response := pyChoice generalClientResponses r.respIdx
  let ai_response := generalAiResponses client_response
  let notesOp := CrmOp.update_call_notes call_id (noteText client_response ai_response) now
  let outcome := pyChoice callOutcomes r.outcomeIdx
  if outcome = "appointment_scheduled" then
    match availableDatesGeneral today with
    | Except.error e => ([notesOp], some e)
    | Except.ok dates =>
        let dateStrs := dates.map formatDateAMBd
        let date_option_1 := pyChoice dateStrs r.dIdx1
        let time_option_1 := pyChoice generalTimes r.tIdx1
        let _date_option_2 :=
          pyChoice (dateStrs.filter (fun d => d ≠ date_option_1)) r.dIdx2
        let _time_option_2 :=
          pyChoice (generalTimes.filter (fun t => t ≠ time_option_1)) r.tIdx2
        ([notesOp,
          CrmOp.schedule_appointment client date_option_1 time_option_1 none r.aptRand now,
          CrmOp.update_call_outcome call_id "Appointment scheduled"], none)
  else
    ([notesOp,
      CrmOp.update_call_outcome call_id (pyTitle (outcome.replace "_" " "))], none)

/-- `_handle_property_inquiry` (`voice_agent.py`): the ledger operations it
attempts, with the same truncation convention. -/
def property_inquiry_ops (client : ClientInfo) (p : PropertyInfo)
    (call_id : String) (today : Date) (now : Nat) (r : CallRand) :
    List CrmOp × Option PyErr :=
  let client_response := pyChoice propertyClientResponses r.respIdx
  let ai_response := propertyAiResponses p client_response
  let notesOp := CrmOp.update_call_notes call_id (noteText client_response ai_response) now
  if client_response = "I\x27d like to schedule a viewing." then
    match availableDatesProperty today with
    | Except.error e => ([notesOp], some e)
    | Except.ok dates =>
        let dateStrs := dates.map formatDateAMBd
        let selected_date := dateStrs.getD 0 ""
        let selected_time := propertyTimes.getD 1 ""
        ([notesOp,
          CrmOp.schedule_appointment client selected_date selected_time (some p.id) r.aptRand now,
          CrmOp.update_call_outcome call_id "Appointment scheduled"], none)
  else
    ([notesOp, CrmOp.update_call_outcome call_id "Information provided"], none)

/-- The flow selection of `make_call`: a supplied property id that resolves
against the catalog enters the property flow; otherwise the general flow. -/
def select_flow_ops (properties : List PropertyInfo) (client : ClientInfo)
    (property_id : Option String) (call_id : String) (today : Date)
    (now : Nat) (r : CallRand) : List CrmOp × Option PyErr :=
  match property_id with
  | some pid =>
      match properties.find? (fun p => p.id = pid) with
      | some p => property_inquiry_ops client p call_id today now r
      | none => general_inquiry_ops client call_id today now r
  | none => general_inquiry_ops client call_id today now r

/-- `make_call` as the sequence of ledger operations it attempts: open the
call, run the selected flow, and close the call — the closing operation is
attempted only when the flow body did not raise; a raise inside a ledger
operation itself is cut off by `runTrace`. -/
def make_call_trace (properties : List PropertyInfo) (client : ClientInfo)
    (property_id : Option String) (call_id : String) (today : Date)
    (now now2 : Nat) (r : CallRand) : List CrmOp × Option PyErr :=
  let startOp := CrmOp.log_call_start client call_id now
  match select_flow_ops properties client property_id call_id today now r with
  | (hops, some e) => (startOp :: hops, some e)
  | (hops, none) => (startOp :: (hops ++ [CrmOp.log_call_end call_id now2]), none)

/-- `make_call`: run the attempted ledger operations against the store.  The
result is the final store, the exception propagated out of `make_call` (if
any), and the returned call id (not observed when an exception is raised). -/
def make_call (properties : List PropertyInfo) (client : ClientInfo)
    (property_id : Option String) (call_id : String) (today : Date)
    (now now2 : Nat) (r : CallRand) (crm : CRMState) :
    CRMState × Option PyErr × String :=
  let tr := make_call_trace properties client property_id call_id today now now2 r
  let run := runTrace crm tr.1
  let err := match run.2 with
    | some e => some e
    | none => tr.2
  (run.1, err, call_id)

/-! ### Invariants around the call records and fixtures used in theorems -/

/-- First half of the claimed CallRecord invariant: the end timestamp and the
duration are set exactly when the status is `completed`. -/
def part1Inv (crm : CRMState) : Prop :=
  ∀ q ∈ crm.calls,
    ((q.2.end_time.isSome = true ∧ q.2.duration.isSome = true) ↔
      q.2.status = "completed")

/-- Second half of the claimed CallRecord invariant: a record whose status is
`completed` has its outcome set. -/
def part2Inv (crm : CRMState) : Prop :=
  ∀ q ∈ crm.calls, q.2.status = "completed" → q.2.outcome.isSome = true

instance (crm : CRMState) : Decidable (part1Inv crm) := by
  unfold part1Inv
  infer_instance

instance (crm : CRMState) : Decidable (part2Inv crm) := by
  unfold part2Inv
  infer_instance

/-- The shape of a `get_call_history` result: a freshly built list (`true`)
versus the internal dict (`false`). -/
def isCallListShape : CallHistoryResult → Bool
  | CallHistoryResult.filteredList _ => true
  | CallHistoryResult.fullMapping _ => false

/-- The shape of a `get_appointments` result: a freshly built filtered list
(`true`) versus the internal list (`false`). -/
def isAptListShape : AppointmentsResult → Bool
  | AppointmentsResult.filteredList _ => true
  | AppointmentsResult.internalList _ => false

/-- The example client of the `__main__` block of `voice_agent.py`. -/
def johnSmith : ClientInfo :=
  { id := "client123", name := "John Smith", phone := "(555) 123-4567",
    email := "john.smith@example.com", interest := "residential",
    location := "downtown", budget := 700000 }

/-- A concrete property-flow run: `make_call` on `prop002` with the
simulated client reply drawn as `"I\x27d like to schedule a viewing."`
(reply index 3), on 2026-10-12. -/
def c2Run : CRMState × Option PyErr × String :=
  make_call defaultProperties johnSmith (some "prop002") "call_1"
    { year := 2026, month := 10, day := 12 } 0 8
    { respIdx := 3, outcomeIdx := 0, dIdx1 := 0, tIdx1 := 0, dIdx2 := 0,
      tIdx2 := 0, aptRand := 1234 } emptyCRM

/-- A concrete general-flow run: `make_call` without a property id, the
weighted draw selecting `appointment_scheduled` (outcome index 0), on
2026-10-12. -/
def c3Run : CRMState × Option PyErr × String :=
  make_call defaultProperties johnSmith none "call_2"
    { year := 2026, month := 10, day := 12 } 0 8
    { respIdx := 0, outcomeIdx := 0, dIdx1 := 0, tIdx1 := 0, dIdx2 := 0,
      tIdx2 := 0, aptRand := 77 } emptyCRM

/-- A CRM store holding one freshly opened call, used to probe the read
accessors. -/
def demoCRM : CRMState :=
  { calls := [("call_1", newCallRecord johnSmith 0)], appointments := [] }

/-! ### Theorems settling the claims -/

/-- Claim C1: for every outcome decided from a present SentimentAssessment,
the outcome is a pure deterministic function of `interest_level` —
`high` yields `appointment_scheduled`, `medium` yields
`information_provided`, `low` yields `follow_up_required` — and
`not_interested` is never produced via this path. -/
theorem sentiment_outcome_mapping (s : SentimentAssessment) :
    (s.interest_level = "high" →
      decideOutcomeFromSentiment s = "appointment_scheduled") ∧
    (s.interest_level = "medium" →
      decideOutcomeFromSentiment s = "information_provided") ∧
    (s.interest_level = "low" →
      decideOutcomeFromSentiment s = "follow_up_required") ∧
    (∀ t : SentimentAssessment, s.interest_level = t.interest_level →
      decideOutcomeFromSentiment s = decideOutcomeFromSentiment t) ∧
    decideOutcomeFromSentiment s ≠ "not_interested" := by
  refine ⟨?_, ?_, ?_, ?_, ?_⟩
  · intro h; unfold decideOutcomeFromSentiment; rw [h]; decide
  · intro h; unfold decideOutcomeFromSentiment; rw [h]; decide
  · intro h; unfold decideOutcomeFromSentiment; rw [h]; decide
  · intro t h; unfold decideOutcomeFromSentiment; rw [h]
  · unfold decideOutcomeFromSentiment
    split
    · decide
    · split <;> decide

/-- Witness for C1 at concrete assessments for each interest level. -/
theorem sentiment_outcome_mapping_witness :
    decideOutcomeFromSentiment
      { sentiment := "positive", interest_level := "high", key_concerns := [],
        preferences := [], next_action := "schedule" } = "appointment_scheduled" ∧
    decideOutcomeFromSentiment
      { sentiment := "neutral", interest_level := "medium", key_concerns := [],
        preferences := [], next_action := "follow" } = "information_provided" ∧
    decideOutcomeFromSentiment
      { sentiment := "negative", interest_level := "low", key_concerns := [],
        preferences := [], next_action := "follow" } = "follow_up_required" :=
  ⟨(sentiment_outcome_mapping _).1 rfl, (sentiment_outcome_mapping _).2.1 rfl,
   (sentiment_outcome_mapping _).2.2.1 rfl⟩

/-- Claim C9: every interest level other than `high` and `medium` — not only
`low` — reaches the unconditional `else` branch and maps to
`follow_up_required`, so the decision is total over arbitrary strings. -/
theorem sentiment_outcome_catch_all (s : SentimentAssessment)
    (h1 : s.interest_level ≠ "high") (h2 : s.interest_level ≠ "medium") :
    decideOutcomeFromSentiment s = "follow_up_required" := by
  unfold decideOutcomeFromSentiment
  rw [if_neg h1, if_neg h2]

/-- Witness for C9 at a malformed interest level. -/
theorem sentiment_outcome_catch_all_witness :
    decideOutcomeFromSentiment
      { sentiment := "neutral", interest_level := "very interested",
        key_concerns := [], preferences := [], next_action := "x" } =
      "follow_up_required" :=
  sentiment_outcome_catch_all _ (by decide) (by decide)

/-- Claim C4: whenever the text-generation backend call raises,
`generate_response` returns exactly the fixed apology string and never
propagates the exception. -/
theorem generate_response_failure_fallback
    (backendCall : List Message → Except String String)
    (client_message : String) (conversation_history : List Message)
    (property_info : Option PropertyInfo) (agent_name : String)
    (agent_context : Option String) (e : String)
    (h : backendCall (buildMessages client_message conversation_history
        property_info agent_name agent_context) = Except.error e) :
    generate_response backendCall client_message conversation_history
      property_info agent_name agent_context = apologyFallback := by
  unfold generate_response
  rw [h]

/-- Witness for C4: a backend that always raises. -/
theorem generate_response_failure_fallback_witness :
    generate_response (fun _ => Except.error "APIConnectionError")
      "Tell me about properties in downtown." [] none "Sarah" none =
      apologyFallback :=
  generate_response_failure_fallback _
    "Tell me about properties in downtown." [] none "Sarah" none
    "APIConnectionError" rfl

/-- Claim C5: whenever the sentiment backend fails, or returns output on
which `json.loads` raises, `analyze_client_sentiment` returns exactly the
default assessment and never raises. -/
theorem analyze_sentiment_failure_default
    (backendCall : String → Except String String)
    (parseJson : String → Except String SentimentAssessment)
    (client_message : String) :
    (∀ e, backendCall (sentimentPrompt client_message) = Except.error e →
      analyze_client_sentiment backendCall parseJson client_message =
        defaultSentimentAssessment) ∧
    (∀ text e, backendCall (sentimentPrompt client_message) = Except.ok text →
      parseJson text = Except.error e →
      analyze_client_sentiment backendCall parseJson client_message =
        defaultSentimentAssessment) := by
  constructor
  · intro e h
    unfold analyze_client_sentiment
    rw [h]
  · intro text e hb hp
    unfold analyze_client_sentiment
    rw [hb]
    dsimp only
    rw [hp]

/-- Witness for C5: a raising backend, and a backend answering unparsable
text. -/
theorem analyze_sentiment_failure_default_witness :
    analyze_client_sentiment (fun _ => Except.error "APIConnectionError")
      (fun _ => Except.error "unreached") "Hi" = defaultSentimentAssessment ∧
    analyze_client_sentiment (fun _ => Except.ok "not json")
      (fun _ => Except.error "Expecting value") "Hi" =
      defaultSentimentAssessment :=
  ⟨(analyze_sentiment_failure_default _ _ "Hi").1 "APIConnectionError" rfl,
   (analyze_sentiment_failure_default _ _ "Hi").2 "not json" "Expecting value"
     rfl rfl⟩

/-- Claim C6 (code bug): when the backend fails, the enrichment of
`_load_properties` does not retain the original description — every record's
description is overwritten with the fixed placeholder text, because
`generate_property_description` swallows the failure and returns the
placeholder instead of raising into the retaining `except` branch. -/
theorem description_enrichment_loses_original_on_failure :
    (loadPropertiesWithOpenAI (fun _ => Except.error "APIConnectionError")).map
        (fun p => p.description) =
      [descriptionFallback, descriptionFallback, descriptionFallback,
        descriptionFallback] ∧
    (defaultProperties.map (fun p => p.description)).all
        (fun d => d ≠ descriptionFallback) = true := by
  constructor
  · rfl
  · decide

/-- Claim C7 (code bug): the candidate-date computation of
`_handle_general_inquiry` raises `ValueError` on the last days of a month
(it uses `replace(day=day+1/+2)` instead of adding a timedelta), so on
2026-01-31 no candidate dates are offered at all. -/
theorem general_inquiry_dates_raise_at_month_end :
    availableDatesGeneral { year := 2026, month := 1, day := 31 } =
      Except.error (PyErr.valueError "day is out of range for month") := rfl

/-- Claim C2 (code bug): in the property flow with the client reply
`"I\x27d like to schedule a viewing."`, `schedule_appointment` raises
`AttributeError` (its parameter `time` shadows the `time` module), so no
appointment is appended and the outcome is never set to
`"Appointment scheduled"`. -/
theorem viewing_reply_creates_no_appointment :
    c2Run.1.appointments = [] ∧
    c2Run.1.calls.map (fun q => q.2.outcome) = [none] ∧
    c2Run.2.1 = some (PyErr.attributeError "str object has no attribute time") :=
  ⟨rfl, rfl, rfl⟩

/-- Claim C3 (code bug): `make_call` does not always close the record it
opened — on the appointment-scheduling path the `AttributeError` from
`schedule_appointment` propagates out of `make_call` and the record is left
`in-progress` with no end timestamp and no duration. -/
theorem make_call_raises_and_leaves_call_open :
    c3Run.2.1 = some (PyErr.attributeError "str object has no attribute time") ∧
    c3Run.1.calls.map (fun q => q.2.status) = ["in-progress"] ∧
    c3Run.1.calls.map (fun q => q.2.end_time) = [none] ∧
    c3Run.1.calls.map (fun q => q.2.duration) = [none] :=
  ⟨rfl, rfl, rfl, rfl⟩

/-- Claim C10 counterexample: a supplied but empty client id is falsy under
Python truthiness, so `get_call_history` returns the internal mapping (and
`get_appointments` the internal list), refuting the claim as stated for the
supplied argument `""`. -/
theorem accessors_empty_id_return_internal :
    isCallListShape (get_call_history demoCRM (some "")) = false ∧
    isAptListShape (get_appointments demoCRM (some "")) = false :=
  ⟨rfl, rfl⟩

/-- Claim C10 (amended): `get_call_history` returns a freshly built list of
records for a supplied non-empty client id and the internal id-to-record
mapping when the id is absent; `get_appointments` analogously returns a
filtered list or the internal appointments list itself. -/
theorem accessors_shape (crm : CRMState) (cid : String) (h : cid ≠ "") :
    isCallListShape (get_call_history crm (some cid)) = true ∧
    get_call_history crm none = CallHistoryResult.fullMapping crm.calls ∧
    isAptListShape (get_appointments crm (some cid)) = true ∧
    get_appointments crm none = AppointmentsResult.internalList crm.appointments := by
  have ht : pyTruthyStr (some cid) = true := by
    unfold pyTruthyStr
    exact bne_iff_ne.mpr h
  refine ⟨?_, ?_, ?_, ?_⟩
  · unfold get_call_history
    rw [ht]
    rfl
  · rfl
  · unfold get_appointments
    rw [ht]
    rfl
  · rfl

/-- Witness for C10 (amended) at a concrete store and client id. -/
theorem accessors_shape_witness :
    isCallListShape (get_call_history demoCRM (some "client123")) = true ∧
    get_call_history demoCRM none = CallHistoryResult.fullMapping demoCRM.calls :=
  ⟨(accessors_shape demoCRM "client123" (by decide)).1,
   (accessors_shape demoCRM "client123" (by decide)).2.1⟩

/-! ### The CallRecord invariant (claim C8) -/

theorem inv_empty : part1Inv emptyCRM ∧ part2Inv emptyCRM := by
  constructor <;> intro q hq <;> simp [emptyCRM] at hq

theorem inv_state_open (call_id : String) (c : ClientInfo) (st : Nat)
    (ns : List (Nat × String)) (oc : Option String) (apts : List Appointment) :
    part1Inv { calls := [(call_id,
        { client := c, start_time := st, end_time := none,
          status := "in-progress", notes := ns, outcome := oc,
          duration := none })], appointments := apts } ∧
    part2Inv { calls := [(call_id,
        { client := c, start_time := st, end_time := none,
          status := "in-progress", notes := ns, outcome := oc,
          duration := none })], appointments := apts } := by
  constructor
  · intro q hq
    rw [List.mem_singleton] at hq
    subst hq
    exact iff_of_false (by simp) (by simp)
  · intro q hq
    rw [List.mem_singleton] at hq
    subst hq
    intro hst
    exact absurd hst (by simp)

theorem inv_state_closed (call_id : String) (c : ClientInfo) (st en : Nat)
    (ns : List (Nat × String)) (oc d : String) (apts : List Appointment) :
    part1Inv { calls := [(call_id,
        { client := c, start_time := st, end_time := some en,
          status := "completed", notes := ns, outcome := some oc,
          duration := some d })], appointments := apts } ∧
    part2Inv { calls := [(call_id,
        { client := c, start_time := st, end_time := some en,
          status := "completed", notes := ns, outcome := some oc,
          duration := some d })], appointments := apts } := by
  constructor
  · intro q hq
    rw [List.mem_singleton] at hq
    subst hq
    exact iff_of_true ⟨rfl, rfl⟩ rfl
  · intro q hq
    rw [List.mem_singleton] at hq
    subst hq
    intro _
    rfl

theorem part1_applyOp {crm crm' : CRMState} {op : CrmOp}
    (h : part1Inv crm) (happ : applyOp crm op = Except.ok crm') :
    part1Inv crm' := by
  cases op with
  | log_call_start client call_id now =>
      simp only [applyOp, Except.ok.injEq] at happ
      subst happ
      intro q hq
      simp only [dictInsert] at hq
      by_cases hc : crm.calls.any (fun p => p.1 = call_id)
      · rw [if_pos hc] at hq
        rcases List.mem_map.mp hq with ⟨p, hp, rfl⟩
        by_cases he : p.1 = call_id
        · rw [if_pos he]
          exact iff_of_false (by simp [newCallRecord]) (by simp [newCallRecord])
        · rw [if_neg he]
          exact h p hp
      · rw [if_neg hc] at hq
        rcases List.mem_append.mp hq with hin | hin
        · exact h q hin
        · rw [List.mem_singleton] at hin
          subst hin
          exact iff_of_false (by simp [newCallRecord]) (by simp [newCallRecord])
  | update_call_notes call_id note now =>
      simp only [applyOp, Except.ok.injEq] at happ
      subst happ
      intro q hq
      rcases List.mem_map.mp hq with ⟨p, hp, rfl⟩
      by_cases he : p.1 = call_id
      · rw [if_pos he]
        exact h p hp
      · rw [if_neg he]
        exact h p hp
  | update_call_outcome call_id outcome =>
      simp only [applyOp, Except.ok.injEq] at happ
      subst happ
      intro q hq
      rcases List.mem_map.mp hq with ⟨p, hp, rfl⟩
      by_cases he : p.1 = call_id
      · rw [if_pos he]
        exact h p hp
      · rw [if_neg he]
        exact h p hp
  | log_call_end call_id now =>
      simp only [applyOp, Except.ok.injEq] at happ
      subst happ
      intro q hq
      rcases List.mem_map.mp hq with ⟨p, hp, rfl⟩
      by_cases he : p.1 = call_id
      · rw [if_pos he]
        exact iff_of_true ⟨rfl, rfl⟩ rfl
      · rw [if_neg he]
        exact h p hp
  | schedule_appointment client date tm property_id rand now =>
      simp [applyOp, strTimeMethod] at happ

theorem part1_statesOf (ops : List CrmOp) :
    ∀ crm, part1Inv crm → ∀ s ∈ statesOf crm ops, part1Inv s := by
  induction ops with
  | nil =>
      intro crm h s hs
      simp only [statesOf, List.mem_singleton] at hs
      subst hs
      exact h
  | cons op ops ih =>
      intro crm h s hs
      simp only [statesOf] at hs
      rcases List.mem_cons.mp hs with rfl | hs2
      · exact h
      · cases happ : applyOp crm op with
        | ok crm2 =>
            simp only [happ] at hs2
            exact ih crm2 (part1_applyOp h happ) s hs2
        | error e =>
            simp only [happ] at hs2
            exact absurd hs2 (List.not_mem_nil s)

theorem general_inquiry_ops_shape (client : ClientInfo) (call_id : String)
    (today : Date) (now : Nat) (r : CallRand) :
    (∃ note e, general_inquiry_ops client call_id today now r =
        ([CrmOp.update_call_notes call_id note now], some e)) ∨
    (∃ note d t pid rand, general_inquiry_ops client call_id today now r =
        ([CrmOp.update_call_notes call_id note now,
          CrmOp.schedule_appointment client d t pid rand now,
          CrmOp.update_call_outcome call_id "Appointment scheduled"], none)) ∨
    (∃ note oc, general_inquiry_ops client call_id today now r =
        ([CrmOp.update_call_notes call_id note now,
          CrmOp.update_call_outcome call_id oc], none)) := by
  by_cases h : pyChoice callOutcomes r.outcomeIdx = "appointment_scheduled"
  · cases hd : availableDatesGeneral today with
    | error e =>
        refine Or.inl ⟨noteText (pyChoice generalClientResponses r.respIdx)
          (generalAiResponses (pyChoice generalClientResponses r.respIdx)), e, ?_⟩
        simp only [general_inquiry_ops, if_pos h, hd]
    | ok dates =>
        refine Or.inr (Or.inl
          ⟨noteText (pyChoice generalClientResponses r.respIdx)
            (generalAiResponses (pyChoice generalClientResponses r.respIdx)),
           pyChoice (dates.map formatDateAMBd) r.dIdx1,
           pyChoice generalTimes r.tIdx1, none, r.aptRand, ?_⟩)
        simp only [general_inquiry_ops, if_pos h, hd]
  · refine Or.inr (Or.inr
      ⟨noteText (pyChoice generalClientResponses r.respIdx)
        (generalAiResponses (pyChoice generalClientResponses r.respIdx)),
       pyTitle ((pyChoice callOutcomes r.outcomeIdx).replace "_" " "), ?_⟩)
    simp only [general_inquiry_ops, if_neg h]

theorem property_inquiry_ops_shape (client : ClientInfo) (p : PropertyInfo)
    (call_id : String) (today : Date) (now : Nat) (r : CallRand) :
    (∃ note e, property_inquiry_ops client p call_id today now r =
        ([CrmOp.update_call_notes call_id note now], some e)) ∨
    (∃ note d t pid rand, property_inquiry_ops client p call_id today now r =
        ([CrmOp.update_call_notes call_id note now,
          CrmOp.schedule_appointment client d t pid rand now,
          CrmOp.update_call_outcome call_id "Appointment scheduled"], none)) ∨
    (∃ note oc, property_inquiry_ops client p call_id today now r =
        ([CrmOp.update_call_notes call_id note now,
          CrmOp.update_call_outcome call_id oc], none)) := by
  by_cases h : pyChoice propertyClientResponses r.respIdx =
      "I\x27d like to schedule a viewing."
  · cases hd : availableDatesProperty today with
    | error e =>
        refine Or.inl ⟨noteText (pyChoice propertyClientResponses r.respIdx)
          (propertyAiResponses p (pyChoice propertyClientResponses r.respIdx)),
          e, ?_⟩
        simp only [property_inquiry_ops, if_pos h, hd]
    | ok dates =>
        refine Or.inr (Or.inl
          ⟨noteText (pyChoice propertyClientResponses r.respIdx)
            (propertyAiResponses p (pyChoice propertyClientResponses r.respIdx)),
           (dates.map formatDateAMBd).getD 0 "", propertyTimes.getD 1 "",
           some p.id, r.aptRand, ?_⟩)
        simp only [property_inquiry_ops, if_pos h, hd]
  · refine Or.inr (Or.inr
      ⟨noteText (pyChoice propertyClientResponses r.respIdx)
        (propertyAiResponses p (pyChoice propertyClientResponses r.respIdx)),
       "Information provided", ?_⟩)
    simp only [property_inquiry_ops, if_neg h]

theorem select_flow_ops_shape (properties : List PropertyInfo)
    (client : ClientInfo) (property_id : Option String) (call_id : String)
    (today : Date) (now : Nat) (r : CallRand) :
    (∃ note e, select_flow_ops properties client property_id call_id today now r =
        ([CrmOp.update_call_notes call_id note now], some e)) ∨
    (∃ note d t pid rand,
        select_flow_ops properties client property_id call_id today now r =
        ([CrmOp.update_call_notes call_id note now,
          CrmOp.schedule_appointment client d t pid rand now,
          CrmOp.update_call_outcome call_id "Appointment scheduled"], none)) ∨
    (∃ note oc, select_flow_ops properties client property_id call_id today now r =
        ([CrmOp.update_call_notes call_id note now,
          CrmOp.update_call_outcome call_id oc], none)) := by
  cases property_id with
  | none =>
      simpa only [select_flow_ops] using
        general_inquiry_ops_shape client call_id today now r
  | some pid =>
      cases hfind : properties.find? (fun p => p.id = pid) with
      | none =>
          simpa only [select_flow_ops, hfind] using
            general_inquiry_ops_shape client call_id today now r
      | some p =>
          simpa only [select_flow_ops, hfind] using
            property_inquiry_ops_shape client p call_id today now r

theorem flow_states_short (client : ClientInfo) (call_id note : String)
    (now nowN : Nat) :
    ∀ s ∈ statesOf emptyCRM
        [CrmOp.log_call_start client call_id now,
         CrmOp.update_call_notes call_id note nowN],
      part1Inv s ∧ part2Inv s := by
  intro s hs
  simp only [statesOf, applyOp, emptyCRM, dictInsert, newCallRecord,
    List.any_nil, Bool.false_eq_true, if_false, List.nil_append, List.map_cons,
    List.map_nil, List.mem_cons, List.not_mem_nil, or_false,
    eq_self_iff_true, if_true] at hs
  rcases hs with rfl | rfl | rfl
  · exact inv_empty
  · exact inv_state_open call_id client now [] none []
  · exact inv_state_open call_id client now ([] ++ [(nowN, note)]) none []

theorem flow_states_blocked (client client2 : ClientInfo)
    (call_id note d t : String) (pid : Option String) (rand : Nat)
    (now nowN nowS now2 : Nat) (oc : String) :
    ∀ s ∈ statesOf emptyCRM
        [CrmOp.log_call_start client call_id now,
         CrmOp.update_call_notes call_id note nowN,
         CrmOp.schedule_appointment client2 d t pid rand nowS,
         CrmOp.update_call_outcome call_id oc,
         CrmOp.log_call_end call_id now2],
      part1Inv s ∧ part2Inv s := by
  intro s hs
  simp only [statesOf, applyOp, strTimeMethod, emptyCRM, dictInsert,
    newCallRecord, List.any_nil, Bool.false_eq_true, if_false, List.nil_append,
    List.map_cons, List.map_nil, List.mem_cons, List.not_mem_nil, or_false,
    eq_self_iff_true, if_true] at hs
  rcases hs with rfl | rfl | rfl
  · exact inv_empty
  · exact inv_state_open call_id client now [] none []
  · exact inv_state_open call_id client now ([] ++ [(nowN, note)]) none []

theorem flow_states_happy (client : ClientInfo) (call_id note oc : String)
    (now nowN now2 : Nat) :
    ∀ s ∈ statesOf emptyCRM
        [CrmOp.log_call_start client call_id now,
         CrmOp.update_call_notes call_id note nowN,
         CrmOp.update_call_outcome call_id oc,
         CrmOp.log_call_end call_id now2],
      part1Inv s ∧ part2Inv s := by
  intro s hs
  simp only [statesOf, applyOp, closeRecord, emptyCRM, dictInsert,
    newCallRecord, List.any_nil, Bool.false_eq_true, if_false, List.nil_append,
    List.map_cons, List.map_nil, List.mem_cons, List.not_mem_nil, or_false,
    eq_self_iff_true, if_true] at hs
  rcases hs with rfl | rfl | rfl | rfl | rfl
  · exact inv_empty
  · exact inv_state_open call_id client now [] none []
  · exact inv_state_open call_id client now ([] ++ [(nowN, note)]) none []
  · exact inv_state_open call_id client now ([] ++ [(nowN, note)]) (some oc) []
  · exact inv_state_closed call_id client now now2 ([] ++ [(nowN, note)]) oc
      (formatDuration (now2 - now)) []

/-- Claim C8 counterexample: `log_call_end` applied to a call whose outcome
was never set yields a reachable record with status `completed` and outcome
unset, so the ledger operations alone do not maintain the claimed
"outcome set before completed" half of the invariant. -/
theorem close_without_outcome_violates_invariant :
    ¬ part2Inv (runTrace emptyCRM
        [CrmOp.log_call_start johnSmith "call_1" 0,
         CrmOp.log_call_end "call_1" 5]).1 := by
  decide

/-- Claim C8 (amended): after every sequence of CrmLedger operations, the end
timestamp and duration of every record are set iff its status is
`completed`; and along every ledger state produced by the call-handling flow
`make_call` — which always sets the outcome before closing — every completed
record also has its outcome set. -/
theorem crm_record_invariant_amended :
    (∀ ops : List CrmOp, ∀ s ∈ statesOf emptyCRM ops, part1Inv s) ∧
    (∀ (properties : List PropertyInfo) (client : ClientInfo)
        (property_id : Option String) (call_id : String) (today : Date)
        (now now2 : Nat) (r : CallRand),
      ∀ s ∈ statesOf emptyCRM
          (make_call_trace properties client property_id call_id today now
            now2 r).1,
        part1Inv s ∧ part2Inv s) := by
  constructor
  · intro ops s hs
    exact part1_statesOf ops emptyCRM inv_empty.1 s hs
  · intro properties client property_id call_id today now now2 r s hs
    rcases select_flow_ops_shape properties client property_id call_id today
        now r with ⟨note, e, heq⟩ | ⟨note, d, t, pid, rand, heq⟩ | ⟨note, oc, heq⟩
    · rw [make_call_trace, heq] at hs
      exact flow_states_short client call_id note now now s hs
    · rw [make_call_trace, heq] at hs
      exact flow_states_blocked client client call_id note d t pid rand now now
        now now2 "Appointment scheduled" s hs
    · rw [make_call_trace, heq] at hs
      exact flow_states_happy client call_id note oc now now now2 s hs

set_option maxRecDepth 10000 in
/-- Witness for C8 (amended) at a concrete operation sequence and a concrete
`make_call` run. -/
theorem crm_record_invariant_amended_witness :
    part1Inv (runTrace emptyCRM
        [CrmOp.log_call_start johnSmith "call_1" 0,
         CrmOp.log_call_end "call_1" 5]).1 ∧
    (part1Inv c3Run.1 ∧ part2Inv c3Run.1) :=
  ⟨crm_record_invariant_amended.1
      [CrmOp.log_call_start johnSmith "call_1" 0,
       CrmOp.log_call_end "call_1" 5] _ (by decide),
   crm_record_invariant_amended.2 defaultProperties johnSmith none "call_2"
      { year := 2026, month := 10, day := 12 } 0 8
      { respIdx := 0, outcomeIdx := 0, dIdx1 := 0, tIdx1 := 0, dIdx2 := 0,
        tIdx2 := 0, aptRand := 77 } _ (by decide)⟩

end VoiceAgent
